import Mathlib

/-!
Verification development for the Google-Form-Translator repository.

The file shallowly embeds the core heuristics of the repository:
the column classifier of `utils/csv_analyzer.py` (`_detect_column_type`,
`_contains_dates`, `generate_report`), the translation pass of
`translator.py` (`translate_text`, `translate_dataframe`,
`batch_translate`), and the correlation-heatmap guard of
`visualizer.py` (`create_correlation_heatmap`).

Modelling conventions:
  - a cell of a table is an `Option String`; `none` stands for an absent
    (NaN/None) value, `some s` for the stringish value `s`;
  - a pandas `Series` is a declared storage-type tag plus the list of
    cells; `Dtype.obj` stands for any dtype that is neither numeric nor
    datetime64 (pandas `object` columns);
  - a `DataFrame` is an insertion-ordered association list from column
    name to cell list; pandas column lookup takes the first match;
  - Python float comparisons on ratios `m / n > 0.5` with `n ≤ 100` are
    exact in IEEE doubles at this scale, so they are modelled as the
    integer comparison `2 * m > n`;
  - UI side effects (progress bar, status text, warnings, sleeps and the
    session-state dictionary of translated column labels) do not affect
    the returned values and are not modelled.
-/

set_option autoImplicit false

namespace GFT

/-! ## Python string helpers -/

/-- Characters stripped by Python `str.strip()` (ASCII whitespace). -/
def pyIsSpace (c : Char) : Bool :=
  c = ' ' || c = '\t' || c = '\n' || c = '\r' || c = '\x0b' || c = '\x0c'

/-- Python `str.strip()`: remove leading and trailing whitespace. -/
def pyStrip (s : String) : String :=
  ⟨((s.data.dropWhile pyIsSpace).reverse.dropWhile pyIsSpace).reverse⟩

/-! ## Column classifier (`utils/csv_analyzer.py`)

`CSVAnalyzer.date_patterns` holds three regular expressions that
`_contains_dates` applies with `re.search` (match anywhere in the
string).  The matchers below implement exactly those three patterns;
quantifiers are written out, e.g. `\d\d\d\d` for four digits. -/

/-- A date separator, a dash or a slash (the separator class of the patterns). -/
def isSep (c : Char) : Bool := c = '-' || c = '/'

/-- Consume exactly `n` decimal digits; return the rest of the input,
or `none` when fewer than `n` digits are available. -/
def digitsThen : Nat → List Char → Option (List Char)
  | 0, rest => some rest
  | n + 1, c :: rest => if c.isDigit then digitsThen n rest else none
  | _ + 1, [] => none

/-- Match a separator followed by exactly `k` digits, returning the rest. -/
def sepThen (k : Nat) (cs : List Char) : Option (List Char) :=
  match cs with
  | c :: rest => if isSep c then digitsThen k rest else none
  | [] => none

/-- Match the first date pattern `\d\d\d\d sep \d\d sep \d\d`
(YYYY-MM-DD or YYYY/MM/DD) at the head of the input. -/
def matchP1At (cs : List Char) : Bool :=
  match digitsThen 4 cs with
  | some r1 =>
    match sepThen 2 r1 with
    | some r2 => (sepThen 2 r2).isSome
    | none => false
  | none => false

/-- Match the second date pattern `\d\d sep \d\d sep \d\d\d\d`
(MM-DD-YYYY or MM/DD/YYYY) at the head of the input. -/
def matchP2At (cs : List Char) : Bool :=
  match digitsThen 2 cs with
  | some r1 =>
    match sepThen 2 r1 with
    | some r2 => (sepThen 4 r2).isSome
    | none => false
  | none => false

/-- Tail part of the third pattern: a separator then four digits. -/
def p3Tail (cs : List Char) : Bool := (sepThen 4 cs).isSome

/-- Middle part of the third pattern: one or two digits, a separator,
then four digits.  The regex quantifier (one-or-two digits) is greedy
with backtracking, which for a Boolean
match is the disjunction of the two-digit and one-digit alternatives. -/
def p3Mid (cs : List Char) : Bool :=
  (match digitsThen 2 cs with
   | some r => p3Tail r
   | none => false) ||
  (match digitsThen 1 cs with
   | some r => p3Tail r
   | none => false)

/-- Separator before the middle group of the third pattern. -/
def sepMid (cs : List Char) : Bool :=
  match cs with
  | c :: rest => isSep c && p3Mid rest
  | [] => false

/-- Match the third date pattern (one or two digits, separator, one or
two digits, separator, four digits)
(M-D-YYYY or M/D/YYYY) at the head of the input. -/
def matchP3At (cs : List Char) : Bool :=
  (match digitsThen 2 cs with
   | some r => sepMid r
   | none => false) ||
  (match digitsThen 1 cs with
   | some r => sepMid r
   | none => false)

/-- Every suffix of a character list, longest first: the candidate
starting positions of `re.search`. -/
def suffixes : List Char → List (List Char)
  | [] => [[]]
  | c :: cs => (c :: cs) :: suffixes cs

/-- The body of the `_contains_dates` per-value loop: `re.search` over
the three `date_patterns`, with the loop's break once one matches. -/
def matchesAnyDatePat (s : String) : Bool :=
  (suffixes s.data).any (fun cs => matchP1At cs || matchP2At cs || matchP3At cs)

/-- `CSVAnalyzer._contains_dates`: sample up to 100 values of the
non-null series (already stringified), count the values on which some
date pattern fires, and compare the fraction against 0.5.  The float
comparison `date_matches / sample_size > 0.5` is exact for
`sample_size ≤ 100`, hence the integer form. -/
def containsDates (values : List String) : Bool :=
  decide (2 * ((values.take (min 100 values.length)).filter matchesAnyDatePat).length
            > min 100 values.length)

/-- Declared pandas storage type of a column.  `obj` stands for every
dtype on which both `is_numeric_dtype` and `is_datetime64_any_dtype`
are false (the `object` columns a parsed CSV produces for text). -/
inductive Dtype
  | numeric
  | datetime64
  | obj
deriving DecidableEq

/-- A pandas `Series`: its declared dtype and its cells. -/
structure PdSeries where
  dtype : Dtype
  values : List (Option String)
deriving DecidableEq

/-- `series.dropna()`: the non-null values, in order. -/
def PdSeries.nonNull (s : PdSeries) : List String := s.values.filterMap id

/-- Python `float(...)`-style acceptance used to model
`pd.to_numeric(..., errors='raise')` on one string: optional sign,
then either a decimal mantissa with optional exponent, or one of the
special words `inf`, `infinity`, `nan` (case-insensitive). -/
def dropSign : List Char → List Char
  | c :: rest => if c = '+' || c = '-' then rest else c :: rest
  | [] => []

/-- Accept a decimal mantissa (`digits`, `digits.digits`, `digits.` or
`.digits`) at the head and return the rest, or `none`. -/
def mantissaRest (cs : List Char) : Option (List Char) :=
  match cs.dropWhile Char.isDigit with
  | '.' :: r2 =>
    if (cs.takeWhile Char.isDigit).isEmpty && (r2.takeWhile Char.isDigit).isEmpty then none
    else some (r2.dropWhile Char.isDigit)
  | rest => if (cs.takeWhile Char.isDigit).isEmpty then none else some rest
/-- Accept an optional exponent (`e`/`E`, optional sign, digits) and
require the end of the input. -/
def expOk : List Char → Bool
  | [] => true
  | c :: rest =>
    if c = 'e' || c = 'E' then
      !((dropSign rest).takeWhile Char.isDigit).isEmpty &&
        ((dropSign rest).dropWhile Char.isDigit).isEmpty
    else false

/-- Whether `pd.to_numeric(value, errors='raise')` succeeds on one
string value. -/
def toNumericOk (s : String) : Bool :=
  if ((dropSign (pyStrip s).data).map Char.toLower) = "inf".data
      || ((dropSign (pyStrip s).data).map Char.toLower) = "infinity".data
      || ((dropSign (pyStrip s).data).map Char.toLower) = "nan".data then true
  else
    match mantissaRest (dropSign (pyStrip s).data) with
    | some rest => expOk rest
    | none => false

/-- `CSVAnalyzer._detect_column_type`, line for line:
empty check first, then the declared-dtype checks, then the
date-pattern heuristic over the non-null values, then the
parse-all-as-numeric attempt, else `text`. -/
def detectColumnType (s : PdSeries) : String :=
  if s.nonNull.length = 0 then "empty"
  else if s.dtype = Dtype.numeric then "numeric"
  else if s.dtype = Dtype.datetime64 then "datetime"
  else if containsDates s.nonNull then "datetime"
  else if s.nonNull.all toNumericOk then "numeric"
  else "text"

/-! ## Translator (`translator.py`) -/

/-- Outcome of one call to the external translation service
(`self.translator.translate(...)`): the call may raise, may return a
falsy result or one without a `text` attribute, or may return a
translated text. -/
inductive CallOutcome
  | raises
  | noResult
  | ok (t : String)

/-- The ambient state of a `TextTranslator`: whether
`self.translator and GOOGLE_TRANSLATE_AVAILABLE` holds, and the
behaviour of the external service on each (text, target) pair. -/
structure TransEnv where
  available : Bool
  call : String → String → CallOutcome

/-- Body of `TextTranslator.translate_text` for a string argument,
line for line: the falsy-empty-string guard, the stripped-empty guard,
the length-below-3 guard, then the guarded service call with the
"[Translation unavailable]" fallback and the exception handler that
returns the stripped text. -/
def translateTextCore (env : TransEnv) (s : String) (tgt : String) : String :=
  if s = "" then s
  else if pyStrip s = "" then s
  else if (pyStrip s).length < 3 then s
  else if env.available then
    match env.call (pyStrip s) tgt with
    | CallOutcome.ok t => t
    | CallOutcome.noResult => pyStrip s
    | CallOutcome.raises => pyStrip s
  else "[Translation unavailable] " ++ pyStrip s

/-- `TextTranslator.translate_text` on a possibly absent cell:
`pd.isna(text)` short-circuits and returns the argument itself. -/
def translateText (env : TransEnv) (text : Option String) (tgt : String) : Option String :=
  match text with
  | none => none
  | some s => some (translateTextCore env s tgt)

/-- Whether `translate_text` reaches its `try` block, i.e. the
translation path, rather than returning the argument through one of
the three pass-through guards. -/
def takesTranslationPath (text : Option String) : Bool :=
  match text with
  | none => false
  | some s =>
    if s = "" then false
    else if pyStrip s = "" then false
    else if (pyStrip s).length < 3 then false
    else true

/-- One cell of the `translate_dataframe` per-column loop: absent
cells are outside the non-null mask and stay untouched; a non-null
cell whose stripped form is empty is appended unchanged, every other
cell goes through `translate_text`. -/
def translateCell (env : TransEnv) (tgt : String) : Option String → Option String
  | none => none
  | some v => if pyStrip v = "" then some v else translateText env (some v) tgt

/-- A pandas `DataFrame` for the translator: insertion-ordered
association list from column name to cells. -/
abbrev PdFrame := List (String × List (Option String))

/-- `name in df.columns`. -/
def hasColumn : PdFrame → String → Bool
  | [], _ => false
  | p :: rest, n => if p.1 = n then true else hasColumn rest n

/-- `df[name]`: the cells of the first column carrying `name`
(column names are unique in a parsed CSV; first match otherwise). -/
def getColumn : PdFrame → String → List (Option String)
  | [], _ => []
  | p :: rest, n => if p.1 = n then p.2 else getColumn rest n

/-- `df.loc[:, name] = vals`: replace the cells of every column
carrying `name`, keeping the order of columns. -/
def setColumn : PdFrame → String → List (Option String) → PdFrame
  | [], _, _ => []
  | p :: rest, n, v => (if p.1 = n then (p.1, v) else p) :: setColumn rest n v

/-- Lines 121 to 124 of `translator.py`: after translating `col`,
store the untouched source cells under `col ++ "_original"`, unless a
column of that name is already present (assignment to a fresh column
name appends it at the end of the frame). -/
def addOriginal (acc : PdFrame) (col : String) (orig : List (Option String)) : PdFrame :=
  if hasColumn acc (col ++ "_original") then acc
  else acc ++ [(col ++ "_original", orig)]

/-- One iteration of the `for column in columns` loop of
`translate_dataframe`: skip names missing from the *input* frame
(with a warning), otherwise write the per-cell translations of the
input column into the accumulated frame and add the `_original` copy.
The translated values and the mask are always read from the input
frame `df`, the writes go to the accumulator (`translated_df`). -/
def translateStep (env : TransEnv) (tgt : String) (df : PdFrame) (acc : PdFrame)
    (col : String) : PdFrame :=
  if hasColumn df col then
    addOriginal (setColumn acc col ((getColumn df col).map (translateCell env tgt)))
      col (getColumn df col)
  else acc

/-- `TextTranslator.translate_dataframe`: an empty selection returns
the frame as is; otherwise fold the per-column step over the selected
column names, starting from the copy of the input frame.  Progress
reporting and the column-label translation dictionary only feed the
UI and are not part of the returned frame. -/
def translateDataframe (env : TransEnv) (df : PdFrame) (columns : List String)
    (tgt : String) : PdFrame :=
  if columns.isEmpty then df
  else columns.foldl (translateStep env tgt df) df

/-- The batching loop of `TextTranslator.batch_translate` with its
default `batch_size = 10`: successive chunks of ten texts.  The `fuel`
argument only bounds the recursion so that the definition is
structural (and hence computable by the kernel); every step consumes
at least one list element, so with `fuel = l.length` the zero-fuel
branch is unreachable. -/
def toBatchesAux : Nat → List String → List (List String)
  | _, [] => []
  | fuel + 1, x :: xs => (x :: xs.take 9) :: toBatchesAux fuel (xs.drop 9)
  | 0, l => [l]

/-- `range(0, len(texts), batch_size)` slicing with `batch_size = 10`. -/
def toBatches (l : List String) : List (List String) :=
  toBatchesAux l.length l

/-- `TextTranslator.batch_translate`: empty input returns `[]`;
otherwise each batch is translated value by value and the batch
results are concatenated in order. -/
def batchTranslate (env : TransEnv) (texts : List String) (tgt : String) : List String :=
  if texts.isEmpty then []
  else ((toBatches texts).map (List.map (fun t => translateTextCore env t tgt))).flatten

/-! ## Analysis report (`CSVAnalyzer.generate_report`) -/

/-- The per-column entry of the analysis dictionary built by
`_analyze_column`, restricted to the fields `generate_report` reads.
`sampleValuesRepr` is the rendered Python list of sample values as it
appears interpolated into the report line. -/
structure ColumnInfo where
  type : String
  nonNullCount : Nat
  nullCount : Nat
  uniqueCount : Nat
  sampleValuesRepr : String

/-- The analysis dictionary built by `analyze_dataframe`
(a `TableProfile`): the `columns` field keeps the insertion order of
the Python dict, which is the original column order of the table. -/
structure AnalysisProfile where
  totalRows : Nat
  totalColumns : Nat
  memoryUsage : String
  totalMissingValues : Nat
  columns : List (String × ColumnInfo)
  textColumns : List String
  numericColumns : List String
  dateColumns : List String

/-- The per-column detail block of the report. -/
def columnDetailLines (p : String × ColumnInfo) : List String :=
  ["\nColumn: " ++ p.1,
   "  Type: " ++ p.2.type,
   "  Non-null Count: " ++ toString p.2.nonNullCount,
   "  Null Count: " ++ toString p.2.nullCount,
   "  Unique Count: " ++ toString p.2.uniqueCount,
   "  Sample Values: " ++ p.2.sampleValuesRepr]

/-- `CSVAnalyzer.generate_report`: build the list of report lines in
the fixed order of the source and join them with newlines. -/
def generateReport (a : AnalysisProfile) : String :=
  String.intercalate "\n"
    (["CSV DATA ANALYSIS REPORT",
      "==============================",
      "Total Rows: " ++ toString a.totalRows,
      "Total Columns: " ++ toString a.totalColumns,
      "Memory Usage: " ++ a.memoryUsage,
      "Missing Values: " ++ toString a.totalMissingValues,
      "",
      "COLUMN BREAKDOWN:",
      "--------------------",
      "Text Columns: " ++ toString a.textColumns.length]
     ++ a.textColumns.map (fun c => "  - " ++ c)
     ++ ["Numeric Columns: " ++ toString a.numericColumns.length]
     ++ a.numericColumns.map (fun c => "  - " ++ c)
     ++ ["Date Columns: " ++ toString a.dateColumns.length]
     ++ a.dateColumns.map (fun c => "  - " ++ c)
     ++ ["",
         "DETAILED COLUMN ANALYSIS:",
         "------------------------------"]
     ++ (a.columns.map columnDetailLines).flatten)

/-! ## Chart builder (`visualizer.py`) -/

/-- A typed frame for the visualizer: column names with dtyped series,
as `select_dtypes` needs the declared storage types. -/
abbrev TypedFrame := List (String × PdSeries)

/-- `df.select_dtypes(include=[np.number])`: the numeric columns, in
order, with the index (rows) unchanged. -/
def selectNumeric (df : TypedFrame) : List (String × PdSeries) :=
  df.filter (fun p => decide (p.2.dtype = Dtype.numeric))

/-- Number of rows of a frame (every column has the same length). -/
def nRows (df : TypedFrame) : Nat :=
  ((df.head?).map (fun p => p.2.values.length)).getD 0

/-- The chart specification returned by a builder, before rendering:
either a figure holding only a centred explanatory message (the
placeholder built by `go.Figure()` plus one centred text label), or a
correlation heatmap of the selected numeric columns.  The heatmap
payload keeps the data the correlation matrix is computed from; the
floating-point matrix itself is rendering detail outside this model. -/
inductive ChartSpec
  | message (title : String) (text : String)
  | heatmap (title : String) (numericData : List (String × PdSeries))

/-- `DataVisualizer.create_correlation_heatmap`: select the numeric
columns; if the numeric sub-frame is empty (no columns or no rows) or
has fewer than two columns, return the placeholder figure with its
explanatory message, otherwise the heatmap.  The function catches
every exception and returns an error figure, so it never raises; the
guard branch modelled here raises nothing to catch. -/
def createCorrelationHeatmap (df : TypedFrame) : ChartSpec :=
  if (selectNumeric df).isEmpty ∨ nRows df = 0 ∨ (selectNumeric df).length < 2 then
    ChartSpec.message "Correlation Matrix"
      "Need at least 2 numeric columns for correlation analysis"
  else
    ChartSpec.heatmap "Correlation Matrix" (selectNumeric df)

/-! ## Concrete environments used by the witnesses -/

/-- A service that translates every text by tagging it with `T:`. -/
def mockEnv : TransEnv := ⟨true, fun s _ => CallOutcome.ok ("T:" ++ s)⟩

/-- An initialized service whose every call raises an exception. -/
def raisingEnv : TransEnv := ⟨true, fun _ _ => CallOutcome.raises⟩

/-- The degraded mode: library missing or initialization failed. -/
def offlineEnv : TransEnv := ⟨false, fun _ _ => CallOutcome.raises⟩

end GFT

/-! ## Helper lemmas about the frame operations -/

namespace GFT

theorem hasColumn_setColumn (df : PdFrame) (c n : String) (v : List (Option String)) :
    hasColumn (setColumn df c v) n = hasColumn df n := by
  induction df with
  | nil => rfl
  | cons p rest ih =>
    by_cases hp : p.1 = c <;> simp [setColumn, hasColumn, hp, ih]

theorem getColumn_setColumn_ne (df : PdFrame) (c n : String) (v : List (Option String))
    (h : n ≠ c) : getColumn (setColumn df c v) n = getColumn df n := by
  have hcn : ¬ c = n := fun he => h he.symm
  induction df with
  | nil => rfl
  | cons p rest ih =>
    by_cases hp : p.1 = c
    · have hpn : ¬ p.1 = n := fun hn => h (hn ▸ hp ▸ rfl)
      simp [setColumn, getColumn, hp, hpn, hcn, ih]
    · by_cases hn : p.1 = n <;> simp [setColumn, getColumn, hp, hn, h, hcn, ih]

theorem hasColumn_append (df l : PdFrame) (n : String) :
    hasColumn (df ++ l) n = (hasColumn df n || hasColumn l n) := by
  induction df with
  | nil => simp [hasColumn]
  | cons p rest ih =>
    by_cases hp : p.1 = n <;> simp [hasColumn, hp, ih]

theorem getColumn_append_left (df l : PdFrame) (n : String)
    (h : hasColumn df n = true) : getColumn (df ++ l) n = getColumn df n := by
  induction df with
  | nil => simp [hasColumn] at h
  | cons p rest ih =>
    by_cases hp : p.1 = n
    · simp [getColumn, hp]
    · simp [hasColumn, hp] at h
      simp [getColumn, hp, ih h]

theorem getColumn_append_new (df : PdFrame) (n : String) (v : List (Option String))
    (h : hasColumn df n = false) : getColumn (df ++ [(n, v)]) n = v := by
  induction df with
  | nil => simp [getColumn]
  | cons p rest ih =>
    by_cases hp : p.1 = n
    · simp [hasColumn, hp] at h
    · simp [hasColumn, hp] at h
      simp [getColumn, hp, ih h]

theorem getColumn_length (df : PdFrame) (n : String) (k : Nat)
    (hlen : ∀ p ∈ df, (p.2 : List (Option String)).length = k)
    (h : hasColumn df n = true) : (getColumn df n).length = k := by
  induction df with
  | nil => simp [hasColumn] at h
  | cons p rest ih =>
    by_cases hp : p.1 = n
    · simpa [getColumn, hp] using hlen p (by simp)
    · simp [hasColumn, hp] at h
      simpa [getColumn, hp] using ih (fun q hq => hlen q (by simp [hq])) h

theorem mem_setColumn (df : PdFrame) (c : String) (v : List (Option String)) :
    ∀ p ∈ setColumn df c v, p ∈ df ∨ p.2 = v := by
  induction df with
  | nil => simp [setColumn]
  | cons q rest ih =>
    intro p hp
    by_cases hq : q.1 = c
    · simp [setColumn, hq] at hp
      rcases hp with h | h
      · right
        rw [h]
      · rcases ih p h with h2 | h2
        · exact Or.inl (by simp [h2])
        · exact Or.inr h2
    · simp [setColumn, hq] at hp
      rcases hp with h | h
      · exact Or.inl (by simp [h])
      · rcases ih p h with h2 | h2
        · exact Or.inl (by simp [h2])
        · exact Or.inr h2

theorem filter_setColumn_ne (df : PdFrame) (c n : String) (v : List (Option String))
    (h : c ≠ n) :
    (setColumn df c v).filter (fun p => decide (p.1 = n)) =
      df.filter (fun p => decide (p.1 = n)) := by
  have hnc : ¬ n = c := fun he => h he.symm
  induction df with
  | nil => rfl
  | cons p rest ih =>
    by_cases hp : p.1 = c
    · have hpn : ¬ p.1 = n := fun hn => h (hp ▸ hn)
      simp [setColumn, hp, hpn, h, hnc, ih]
    · by_cases hn : p.1 = n <;> simp [setColumn, hp, hn, h, hnc, ih]

theorem getColumn_eq_filter (df : PdFrame) (n : String) :
    getColumn df n =
      (((df.filter (fun p => decide (p.1 = n))).head?).map Prod.snd).getD [] := by
  induction df with
  | nil => rfl
  | cons p rest ih =>
    by_cases hp : p.1 = n
    · simp [getColumn, List.filter_cons, hp]
    · simp [getColumn, List.filter_cons, hp, ih]

theorem str_append_right_cancel (a b s : String) (h : a ++ s = b ++ s) : a = b := by
  cases a with
  | mk da =>
    cases b with
    | mk db =>
      cases s with
      | mk ds =>
        have h2 : da ++ ds = db ++ ds := by
          have h3 := congrArg String.data h
          simpa using h3
        have h4 : da = db := List.append_cancel_right h2
        rw [h4]

/-! ## Helper lemmas about one step of the translation loop -/

theorem translateStep_hasColumn (env : TransEnv) (tgt : String) (df acc : PdFrame)
    (c n : String) (h : hasColumn acc n = true) :
    hasColumn (translateStep env tgt df acc c) n = true := by
  unfold translateStep addOriginal
  split
  · split
    · simpa [hasColumn_setColumn] using h
    · simp [hasColumn_append, hasColumn_setColumn, h]
  · exact h

theorem translateStep_getColumn_ne (env : TransEnv) (tgt : String) (df acc : PdFrame)
    (c n : String) (h : hasColumn acc n = true) (hne : n ≠ c) :
    getColumn (translateStep env tgt df acc c) n = getColumn acc n := by
  unfold translateStep addOriginal
  split
  · split
    · exact getColumn_setColumn_ne acc c n _ hne
    · rw [getColumn_append_left _ _ _ (by simpa [hasColumn_setColumn] using h)]
      exact getColumn_setColumn_ne acc c n _ hne
  · rfl

theorem translateStep_length (env : TransEnv) (tgt : String) (df acc : PdFrame)
    (c : String) (k : Nat)
    (hdf : ∀ p ∈ df, (p.2 : List (Option String)).length = k)
    (hacc : ∀ p ∈ acc, (p.2 : List (Option String)).length = k) :
    ∀ p ∈ translateStep env tgt df acc c, (p.2 : List (Option String)).length = k := by
  unfold translateStep addOriginal
  split
  · rename_i hdfc
    have hset : ∀ p ∈ setColumn acc c ((getColumn df c).map (translateCell env tgt)),
        (p.2 : List (Option String)).length = k := by
      intro p hp
      rcases mem_setColumn acc c _ p hp with h | h
      · exact hacc p h
      · rw [h, List.length_map]
        exact getColumn_length df c k hdf hdfc
    split
    · exact hset
    · intro p hp
      rcases List.mem_append.mp hp with h | h
      · exact hset p h
      · simp at h
        rw [h]
        exact getColumn_length df c k hdf hdfc
  · exact hacc

theorem translateStep_filter (env : TransEnv) (tgt : String) (df acc : PdFrame)
    (c n : String) (hne : c ≠ n) (h : hasColumn acc n = true) :
    (translateStep env tgt df acc c).filter (fun p => decide (p.1 = n)) =
      acc.filter (fun p => decide (p.1 = n)) := by
  unfold translateStep addOriginal
  split
  · split
    · exact filter_setColumn_ne acc c n _ hne
    · rename_i hno
      have hcn : ¬ (c ++ "_original") = n := by
        intro he
        rw [hasColumn_setColumn] at hno
        rw [he] at hno
        simp [h] at hno
      rw [List.filter_append]
      simp [hcn]
      exact filter_setColumn_ne acc c n _ hne
  · rfl

end GFT

/-! ## Invariants of the translation fold -/

namespace GFT

theorem foldl_getColumn_not_mem (env : TransEnv) (tgt : String) (df : PdFrame) :
    ∀ (cols : List String) (acc : PdFrame) (n : String),
      hasColumn acc n = true → n ∉ cols →
      getColumn (cols.foldl (translateStep env tgt df) acc) n = getColumn acc n ∧
      hasColumn (cols.foldl (translateStep env tgt df) acc) n = true := by
  intro cols
  induction cols with
  | nil =>
    intro acc n h _
    exact ⟨rfl, h⟩
  | cons c rest ih =>
    intro acc n h hmem
    have hne : n ≠ c := fun he => hmem (by simp [he])
    have hmem2 : n ∉ rest := fun hm => hmem (by simp [hm])
    have h1 := translateStep_hasColumn env tgt df acc c n h
    have h2 := translateStep_getColumn_ne env tgt df acc c n h hne
    rw [List.foldl_cons]
    rcases ih (translateStep env tgt df acc c) n h1 hmem2 with ⟨g1, g2⟩
    exact ⟨by rw [g1, h2], g2⟩

theorem foldl_length (env : TransEnv) (tgt : String) (df : PdFrame) (k : Nat)
    (hdf : ∀ p ∈ df, (p.2 : List (Option String)).length = k) :
    ∀ (cols : List String) (acc : PdFrame),
      (∀ p ∈ acc, (p.2 : List (Option String)).length = k) →
      ∀ p ∈ cols.foldl (translateStep env tgt df) acc,
        (p.2 : List (Option String)).length = k := by
  intro cols
  induction cols with
  | nil =>
    intro acc hacc
    exact hacc
  | cons c rest ih =>
    intro acc hacc
    rw [List.foldl_cons]
    exact ih _ (translateStep_length env tgt df acc c k hdf hacc)

theorem foldl_filter_frozen (env : TransEnv) (tgt : String) (df : PdFrame) :
    ∀ (cols : List String) (acc : PdFrame) (n : String),
      n ∉ cols → hasColumn acc n = true →
      (cols.foldl (translateStep env tgt df) acc).filter (fun p => decide (p.1 = n)) =
        acc.filter (fun p => decide (p.1 = n)) := by
  intro cols
  induction cols with
  | nil =>
    intro acc n _ _
    rfl
  | cons c rest ih =>
    intro acc n hmem h
    have hne : c ≠ n := fun he => hmem (by simp [he])
    rw [List.foldl_cons]
    rw [ih _ n (fun hm => hmem (by simp [hm])) (translateStep_hasColumn env tgt df acc c n h)]
    exact translateStep_filter env tgt df acc c n hne h

theorem foldl_original (env : TransEnv) (tgt : String) (df : PdFrame) (col : String)
    (hc : hasColumn df col = true)
    (hno : hasColumn df (col ++ "_original") = false) :
    ∀ (cols : List String) (acc : PdFrame),
      (hasColumn acc (col ++ "_original") = true →
        getColumn acc (col ++ "_original") = getColumn df col) →
      (col ∈ cols ∨ hasColumn acc (col ++ "_original") = true) →
      hasColumn (cols.foldl (translateStep env tgt df) acc) (col ++ "_original") = true ∧
      getColumn (cols.foldl (translateStep env tgt df) acc) (col ++ "_original") =
        getColumn df col := by
  intro cols
  induction cols with
  | nil =>
    intro acc hinv hgoal
    rcases hgoal with h | h
    · exact absurd h (List.not_mem_nil col)
    · exact ⟨h, hinv h⟩
  | cons c rest ih =>
    intro acc hinv hgoal
    rw [List.foldl_cons]
    cases hdfc : hasColumn df c with
    | false =>
      have hstep : translateStep env tgt df acc c = acc := by
        simp [translateStep, hdfc]
      rw [hstep]
      apply ih acc hinv
      rcases hgoal with h | h
      · rcases List.mem_cons.mp h with he | hm
        · rw [he] at hc
          rw [hc] at hdfc
          exact absurd hdfc (by simp)
        · exact Or.inl hm
      · exact Or.inr h
    | true =>
      have hcne : c ≠ col ++ "_original" := by
        intro he
        rw [he] at hdfc
        rw [hdfc] at hno
        exact absurd hno (by simp)
      by_cases hccol : c = col
      · -- processing the column itself establishes the invariant
        subst hccol
        have hstep : translateStep env tgt df acc c =
            addOriginal (setColumn acc c ((getColumn df c).map (translateCell env tgt)))
              c (getColumn df c) := by
          simp [translateStep, hdfc]
        rw [hstep]
        unfold addOriginal
        cases hacc1 : hasColumn (setColumn acc c ((getColumn df c).map (translateCell env tgt)))
            (c ++ "_original") with
        | true =>
          rw [if_pos rfl]
          apply ih _ _ (Or.inr hacc1)
          intro _
          rw [getColumn_setColumn_ne acc c _ _ (Ne.symm hcne)]
          rw [hasColumn_setColumn] at hacc1
          exact hinv hacc1
        | false =>
          rw [if_neg (by simp)]
          have hadd : getColumn
              (setColumn acc c ((getColumn df c).map (translateCell env tgt)) ++
                [(c ++ "_original", getColumn df c)]) (c ++ "_original") =
              getColumn df c :=
            getColumn_append_new _ _ _ hacc1
          have hhas : hasColumn
              (setColumn acc c ((getColumn df c).map (translateCell env tgt)) ++
                [(c ++ "_original", getColumn df c)]) (c ++ "_original") = true := by
            rw [hasColumn_append]
            simp [hasColumn]
          apply ih _ _ (Or.inr hhas)
          intro _
          exact hadd
      · -- a different column: the tracked name is left alone
        cases haco : hasColumn acc (col ++ "_original") with
        | true =>
          have h1 := translateStep_hasColumn env tgt df acc c (col ++ "_original") haco
          have h2 := translateStep_getColumn_ne env tgt df acc c (col ++ "_original") haco
            (Ne.symm hcne)
          apply ih _ _ (Or.inr h1)
          intro _
          rw [h2]
          exact hinv haco
        | false =>
          have hadd_ne : ¬ (c ++ "_original") = (col ++ "_original") := by
            intro he
            exact hccol (str_append_right_cancel c col "_original" he)
          have hstill : hasColumn (translateStep env tgt df acc c) (col ++ "_original") =
              false := by
            unfold translateStep addOriginal
            rw [if_pos hdfc]
            split
            · rw [hasColumn_setColumn]
              exact haco
            · rw [hasColumn_append, hasColumn_setColumn, haco]
              simp [hasColumn, hadd_ne]
          have hcol_rest : col ∈ rest := by
            rcases hgoal with h | h
            · rcases List.mem_cons.mp h with he | hm
              · exact absurd he.symm hccol
              · exact hm
            · rw [h] at haco
              exact absurd haco (by simp)
          apply ih _ _ (Or.inl hcol_rest)
          intro hcontra
          rw [hstill] at hcontra
          exact absurd hcontra (by simp)

end GFT

/-! ## The batching loop computes a per-value map -/

namespace GFT

theorem toBatchesAux_flatten (f : String → String) :
    ∀ (fuel : Nat) (l : List String), l.length ≤ fuel →
      ((toBatchesAux fuel l).map (List.map f)).flatten = l.map f := by
  intro fuel
  induction fuel with
  | zero =>
    intro l h
    have hnil : l = [] := List.length_eq_zero.mp (Nat.le_zero.mp h)
    subst hnil
    rfl
  | succ fuel ih =>
    intro l h
    match l with
    | [] => rfl
    | x :: xs =>
      simp only [toBatchesAux, List.map_cons, List.flatten_cons]
      rw [ih (xs.drop 9) (by simp only [List.length_drop, List.length_cons] at *; omega)]
      rw [List.cons_append, ← List.map_append, List.take_append_drop]

theorem batchTranslate_eq_map (env : TransEnv) (tgt : String) (texts : List String) :
    batchTranslate env texts tgt = texts.map (fun t => translateTextCore env t tgt) := by
  cases texts with
  | nil => rfl
  | cons x xs =>
    unfold batchTranslate toBatches
    rw [if_neg (by simp)]
    exact toBatchesAux_flatten (fun t => translateTextCore env t tgt)
      (x :: xs).length (x :: xs) (Nat.le_refl _)

end GFT

/-! ## The claims -/

namespace GFT

/-- Claim C1, counterexample: an all-absent column whose declared
storage type is numeric is classified `empty`, not `numeric` — the
all-absent short-circuit of `_detect_column_type` fires before the
declared-dtype check, so the tag is not `numeric` regardless of
content. -/
theorem C1_counterexample :
    detectColumnType ⟨Dtype.numeric, [none]⟩ = "empty" ∧
    detectColumnType ⟨Dtype.numeric, [none]⟩ ≠ "numeric" := by
  decide

/-- Claim C1, amended: for every column of declared numeric storage
type holding at least one non-absent value, `_detect_column_type`
returns `numeric` regardless of content; a numeric-typed column whose
values are all absent instead returns `empty`. -/
theorem C1_numeric_dtype (s : PdSeries) (hd : s.dtype = Dtype.numeric)
    (hn : s.nonNull ≠ []) : detectColumnType s = "numeric" := by
  have h0 : ¬ s.nonNull.length = 0 := fun h => hn (List.length_eq_zero.mp h)
  simp [detectColumnType, h0, hd]

/-- Witness for the amended claim C1 at a concrete numeric column. -/
theorem C1_witness : detectColumnType ⟨Dtype.numeric, [some "x", none]⟩ = "numeric" :=
  C1_numeric_dtype ⟨Dtype.numeric, [some "x", none]⟩ rfl (by decide)

/-- Claim C2: `translate_text` returns the value unchanged and takes
no translation path when the value is absent or its stripped form has
length below three (which covers the stripped-empty case, length 0);
every string whose stripped length is at least three reaches the
translation path. -/
theorem C2_pass_through (env : TransEnv) (tgt : String) :
    (∀ text : Option String,
       (text = none ∨ ∃ s, text = some s ∧ (pyStrip s).length < 3) →
       translateText env text tgt = text ∧ takesTranslationPath text = false) ∧
    (∀ s : String, 3 ≤ (pyStrip s).length → takesTranslationPath (some s) = true) := by
  constructor
  · intro text h
    rcases h with h | ⟨s, rfl, hlt⟩
    · subst h
      exact ⟨rfl, rfl⟩
    · constructor
      · by_cases h1 : s = ""
        · simp [translateText, translateTextCore, h1]
        · by_cases h2 : pyStrip s = ""
          · simp [translateText, translateTextCore, h1, h2]
          · simp [translateText, translateTextCore, h1, h2, hlt]
      · by_cases h1 : s = "" <;> by_cases h2 : pyStrip s = "" <;>
          simp [takesTranslationPath, h1, h2, hlt]
  · intro s h3
    have hstrip : ¬ pyStrip s = "" := by
      intro h
      rw [h] at h3
      exact absurd h3 (by decide)
    have hs : ¬ s = "" := by
      intro h
      apply hstrip
      rw [h]
      decide
    have hge : ¬ (pyStrip s).length < 3 := Nat.not_lt.mpr h3
    simp [takesTranslationPath, hs, hstrip, hge]

/-- Witness for claim C2: the length-2 string `Hi` passes through
unchanged, the length-3 string `abc` takes the translation path. -/
theorem C2_witness :
    translateText mockEnv (some "Hi") "es" = some "Hi" ∧
    takesTranslationPath (some "abc") = true :=
  ⟨((C2_pass_through mockEnv "es").1 (some "Hi") (Or.inr ⟨"Hi", rfl, by decide⟩)).1,
   (C2_pass_through mockEnv "es").2 "abc" (by decide)⟩

/-- Claim C3, counterexample: when the input frame already holds an
`x_original` column, `translate_dataframe` keeps it, so the returned
`x_original` is not the pre-translation content of `x`. -/
theorem C3_counterexample :
    getColumn (translateDataframe mockEnv
        [("x", [some "hello"]), ("x_original", [some "zzz"])] ["x"] "en") "x_original" ≠
      getColumn [("x", [some "hello"]), ("x_original", [some "zzz"])] "x" := by
  decide

/-- Claim C3, amended: for every frame, selected column present in it
and target language, *provided the input does not already contain a
column named `<col>_original`*, the returned frame contains a column
of that name whose values are the pre-translation values of the
selected column. -/
theorem C3_original_column (env : TransEnv) (df : PdFrame) (cols : List String)
    (tgt col : String) (h1 : col ∈ cols) (h2 : hasColumn df col = true)
    (h3 : hasColumn df (col ++ "_original") = false) :
    hasColumn (translateDataframe env df cols tgt) (col ++ "_original") = true ∧
    getColumn (translateDataframe env df cols tgt) (col ++ "_original") =
      getColumn df col := by
  have hne : ¬ cols.isEmpty = true := by
    cases cols with
    | nil => exact absurd h1 (List.not_mem_nil col)
    | cons a l => simp
  unfold translateDataframe
  rw [if_neg hne]
  exact foldl_original env tgt df col h2 h3 cols df
    (fun h => absurd h (by simp [h3])) (Or.inl h1)

/-- Witness for the amended claim C3 at a concrete one-column frame. -/
theorem C3_witness :
    getColumn (translateDataframe mockEnv [("x", [some "hello"])] ["x"] "en")
        "x_original" =
      getColumn [("x", [some "hello"])] "x" :=
  (C3_original_column mockEnv [("x", [some "hello"])] ["x"] "en" "x" (by decide)
    (by decide) (by decide)).2

/-- Claim C4, counterexample: with an initialized service whose call
raises, `translate_text` returns the bare stripped value, not the
marker-wrapped one — the `[Translation unavailable]` prefix is only
produced on the service-unavailable branch, not in the exception
handler. -/
theorem C4_counterexample :
    translateText raisingEnv (some "abc") "en" = some "abc" ∧
    translateText raisingEnv (some "abc") "en" ≠
      some "[Translation unavailable] abc" := by
  decide

/-- Claim C4, amended: for a value of stripped length at least three,
if the translation capability is not configured or failed to
initialize the value is returned wrapped with the visible
`[Translation unavailable]` marker; if instead the per-value call
raises, the stripped value itself is returned unwrapped.  In both
cases nothing aborts, and one failing value never prevents sibling
values: the batched translation equals the independent per-value
map. -/
theorem C4_failure_modes (env : TransEnv) (tgt s : String)
    (h3 : 3 ≤ (pyStrip s).length) :
    (env.available = false →
      translateText env (some s) tgt = some ("[Translation unavailable] " ++ pyStrip s)) ∧
    (env.available = true → env.call (pyStrip s) tgt = CallOutcome.raises →
      translateText env (some s) tgt = some (pyStrip s)) ∧
    (∀ texts : List String,
      batchTranslate env texts tgt = texts.map (fun t => translateTextCore env t tgt)) := by
  have hstrip : ¬ pyStrip s = "" := by
    intro h
    rw [h] at h3
    exact absurd h3 (by decide)
  have hs : ¬ s = "" := by
    intro h
    apply hstrip
    rw [h]
    decide
  have hge : ¬ (pyStrip s).length < 3 := Nat.not_lt.mpr h3
  refine ⟨?_, ?_, ?_⟩
  · intro hav
    simp [translateText, translateTextCore, hs, hstrip, hge, hav]
  · intro hav hcall
    simp [translateText, translateTextCore, hs, hstrip, hge, hav, hcall]
  · intro texts
    exact batchTranslate_eq_map env tgt texts

/-- Witness for the amended claim C4: a raising call on `abc` returns
the stripped value unwrapped. -/
theorem C4_witness :
    translateText raisingEnv (some "abc") "en" = some (pyStrip "abc") :=
  (C4_failure_modes raisingEnv "en" "abc" (by decide)).2.1 rfl rfl

/-- Claim C5: for a column of non-numeric, non-datetime declared type
with at least one non-null value, the classifier returns `datetime`
exactly when `_contains_dates` fires on the non-null values, i.e.
when strictly more than half of the up-to-100-value sample matches
one of the three date patterns. -/
theorem C5_datetime_iff (s : PdSeries) (hd : s.dtype = Dtype.obj)
    (hn : s.nonNull ≠ []) :
    detectColumnType s = "datetime" ↔ containsDates s.nonNull = true := by
  have h0 : ¬ s.nonNull.length = 0 := fun h => hn (List.length_eq_zero.mp h)
  simp only [detectColumnType, h0, hd, if_false]
  cases hcd : containsDates s.nonNull with
  | true => simp
  | false =>
    cases hall : s.nonNull.all toNumericOk with
    | true => simp
    | false => simp

/-- Witness for claim C5: the all-dates column from the spec is
classified `datetime`. -/
theorem C5_witness :
    detectColumnType
        ⟨Dtype.obj, [some "2021-01-01", some "2021-02-01", some "2021-03-01"]⟩ =
      "datetime" :=
  (C5_datetime_iff
      ⟨Dtype.obj, [some "2021-01-01", some "2021-02-01", some "2021-03-01"]⟩
      rfl (by decide)).mpr (by decide)

/-- Claim C6: for a non-numeric-typed column on which the date
heuristic does not fire, a single non-null value that does not parse
as a number forces the tag `text`. -/
theorem C6_text_forced (s : PdSeries) (hd : s.dtype = Dtype.obj)
    (hdate : containsDates s.nonNull = false) (v : String) (hv : v ∈ s.nonNull)
    (hnum : toNumericOk v = false) : detectColumnType s = "text" := by
  have hn : s.nonNull ≠ [] := List.ne_nil_of_mem hv
  have h0 : ¬ s.nonNull.length = 0 := fun h => hn (List.length_eq_zero.mp h)
  have hall : s.nonNull.all toNumericOk = false := by
    cases hca : s.nonNull.all toNumericOk with
    | false => rfl
    | true =>
      have hpv := List.all_eq_true.mp hca v hv
      rw [hnum] at hpv
      exact absurd hpv (by simp)
  simp [detectColumnType, h0, hd, hdate, hall]

/-- Witness for claim C6: the column from the spec with one
non-numeric value is classified `text`. -/
theorem C6_witness :
    detectColumnType ⟨Dtype.obj, [some "12", some "7", some "abc"]⟩ = "text" :=
  C6_text_forced ⟨Dtype.obj, [some "12", some "7", some "abc"]⟩ rfl (by decide)
    "abc" (by decide) (by decide)

/-- Claim C7: `generate_report` is deterministic — the report is a
pure function of the analysis profile (the iteration order over the
per-column dictionary is the insertion order, modelled by the list),
so two calls on the same profile produce byte-identical text. -/
theorem C7_report_deterministic (a : AnalysisProfile) :
    generateReport a = generateReport a := rfl

/-- Claim C8: with fewer than two numeric columns the correlation
heatmap builder returns the placeholder figure carrying the
explanatory message (and, being a total function on the model, it
raises nothing). -/
theorem C8_heatmap_guard (df : TypedFrame) (h : (selectNumeric df).length < 2) :
    createCorrelationHeatmap df =
      ChartSpec.message "Correlation Matrix"
        "Need at least 2 numeric columns for correlation analysis" := by
  unfold createCorrelationHeatmap
  rw [if_pos (Or.inr (Or.inr h))]

/-- Witness for claim C8 at a table with exactly one numeric column. -/
theorem C8_witness :
    createCorrelationHeatmap [("a", ⟨Dtype.numeric, [some "1", some "2"]⟩)] =
      ChartSpec.message "Correlation Matrix"
        "Need at least 2 numeric columns for correlation analysis" :=
  C8_heatmap_guard [("a", ⟨Dtype.numeric, [some "1", some "2"]⟩)] (by decide)

/-- Claim C9: `translate_dataframe` preserves the row count (every
column of the result has the input row count) and leaves every column
that is not selected — including any pre-existing column not of the
form `<selected>_original` — with values identical to the input. -/
theorem C9_frame_preserved (env : TransEnv) (df : PdFrame) (cols : List String)
    (tgt : String) (k : Nat)
    (hlen : ∀ p ∈ df, (p.2 : List (Option String)).length = k) :
    (∀ p ∈ translateDataframe env df cols tgt,
       (p.2 : List (Option String)).length = k) ∧
    (∀ n : String, hasColumn df n = true → n ∉ cols →
       getColumn (translateDataframe env df cols tgt) n = getColumn df n) := by
  unfold translateDataframe
  by_cases he : cols.isEmpty = true
  · rw [if_pos he]
    exact ⟨hlen, fun n _ _ => rfl⟩
  · rw [if_neg he]
    constructor
    · exact foldl_length env tgt df k hlen cols df hlen
    · intro n hn hmem
      exact (foldl_getColumn_not_mem env tgt df cols df n hn hmem).1

/-- Witness for claim C9: a non-selected column is returned intact. -/
theorem C9_witness :
    getColumn (translateDataframe mockEnv
        [("x", [some "hello"]), ("y", [some "keep"])] ["x"] "en") "y" =
      getColumn [("x", [some "hello"]), ("y", [some "keep"])] "y" :=
  (C9_frame_preserved mockEnv [("x", [some "hello"]), ("y", [some "keep"])] ["x"] "en" 1
    (by decide)).2 "y" (by decide) (by decide)

/-- Claim C10, counterexample: when `x_original` is itself among the
selected columns, its pre-existing values are translated in place, so
they are not returned unchanged. -/
theorem C10_counterexample :
    getColumn (translateDataframe mockEnv
        [("x", [some "hello"]), ("x_original", [some "world"])]
        ["x", "x_original"] "en") "x_original" ≠
      getColumn [("x", [some "hello"]), ("x_original", [some "world"])]
        "x_original" := by
  decide

/-- Claim C10, amended: if the input frame already contains
`<col>_original` for a selected column `<col>` and `<col>_original`
is not itself selected for translation, `translate_dataframe` does
not overwrite it: the pre-existing values come back unchanged, and no
copy of the source values is stored — the entries named
`<col>_original` are exactly those of the input. -/
theorem C10_no_overwrite (env : TransEnv) (df : PdFrame) (cols : List String)
    (tgt col : String) (h1 : col ∈ cols)
    (h2 : hasColumn df (col ++ "_original") = true)
    (h3 : (col ++ "_original") ∉ cols) :
    getColumn (translateDataframe env df cols tgt) (col ++ "_original") =
      getColumn df (col ++ "_original") ∧
    (translateDataframe env df cols tgt).filter
        (fun p => decide (p.1 = col ++ "_original")) =
      df.filter (fun p => decide (p.1 = col ++ "_original")) := by
  have hne : ¬ cols.isEmpty = true := by
    cases cols with
    | nil => exact absurd h1 (List.not_mem_nil col)
    | cons a l => simp
  unfold translateDataframe
  rw [if_neg hne]
  have hfil := foldl_filter_frozen env tgt df cols df (col ++ "_original") h3 h2
  refine ⟨?_, hfil⟩
  rw [getColumn_eq_filter, hfil, ← getColumn_eq_filter]

/-- Witness for the amended claim C10: a pre-existing `x_original`
column survives untouched when only `x` is selected. -/
theorem C10_witness :
    getColumn (translateDataframe mockEnv
        [("x", [some "hello"]), ("x_original", [some "world"])] ["x"] "en")
        "x_original" =
      getColumn [("x", [some "hello"]), ("x_original", [some "world"])]
        "x_original" :=
  (C10_no_overwrite mockEnv [("x", [some "hello"]), ("x_original", [some "world"])]
    ["x"] "en" "x" (by decide) (by decide) (by decide)).1

end GFT
